import Mathlib

/-!
Shallow embedding of the retrieval-augmented chatbot pipeline of the
MindCare repository: the FAISS-backed vector store (chatbot/vector.py), the
conversational retrieval chain with buffer memory (chatbot/chatbot_memory.py)
and the chat page handler (pages/chatbot.py).  External collaborators — the
embedding model, the nearest-neighbor search inside the vector library and
the generation model — enter as explicit parameters or black-box outcome
functions; everything the repository itself does is translated directly.
-/

namespace MindCare

/-- Speaker role of one conversation turn kept by the buffer memory. -/
inductive Role where
  | user
  | assistant
  deriving DecidableEq

/-- One conversation turn: a (role, text) pair. -/
structure Turn where
  role : Role
  text : String
  deriving DecidableEq

/-- Conversation memory content: turns in insertion order, oldest first. -/
abbrev History := List Turn

/-- One retrievable document of the vector index (its page content). -/
structure Document where
  text : String
  deriving DecidableEq

/-- Dense embedding vector; float coordinates are modelled as exact rationals. -/
abbrev Embedding := List ℚ

/-- Squared L2 distance between two embedding vectors, the metric of the
dense FAISS index. -/
def sqDist (u v : Embedding) : ℚ :=
  (List.zipWith (fun a b => (a - b) * (a - b)) u v).sum

/-- Entry of the vector index: one document together with its embedding. -/
structure IndexEntry where
  doc : Document
  vec : Embedding

/-- Ordering of scored documents: increasing distance from the query. -/
def distLE (p q : Document × ℚ) : Prop := p.2 ≤ q.2

instance : DecidableRel distLE := fun p q => inferInstanceAs (Decidable (p.2 ≤ q.2))

instance : IsTotal (Document × ℚ) distLE := ⟨fun p q => le_total p.2 q.2⟩

instance : IsTrans (Document × ℚ) distLE := ⟨fun _ _ _ => le_trans⟩

/-- Distances of every index entry to the query embedding, in index order. -/
def scoreEntries (entries : List IndexEntry) (qv : Embedding) : List (Document × ℚ) :=
  entries.map (fun e => (e.doc, sqDist e.vec qv))

/-- Nearest-neighbor search of the store as exposed through as_retriever with
search_kwargs k in ChatbotMemory.__init__: every entry scored against the
query embedding, ordered by increasing distance, truncated to the k nearest. -/
def similaritySearch (entries : List IndexEntry) (qv : Embedding) (k : Nat) :
    List (Document × ℚ) :=
  (List.insertionSort distLE (scoreEntries entries qv)).take k

/-- Retriever top-k from as_retriever search_kwargs in ChatbotMemory.__init__. -/
def retrieverK : Nat := 3

/-- Fixed system-instruction section of custom_template in chatbot_memory.py:
domain, concision, the do-not-fabricate rule, the target language. -/
def systemInstructions : String :=
  "\n        Vous êtes un assistant spécialisé dans la santé mentale au Maroc.\n        Utilisez les informations de contexte suivantes pour répondre de manière concise à la question de l'utilisateur.\n        Si vous ne connaissez pas la réponse, dites simplement que vous n'avez pas cette information dans vos documents. N'inventez rien.\n        Répondez toujours en français.\n\n"

/-- Label opening the context section of custom_template. -/
def contexteLabel : String := "        Contexte: "

/-- Label opening the conversation-history section of custom_template. -/
def historiqueLabel : String := "\n        Historique de la conversation: "

/-- Label opening the question section of custom_template. -/
def questionLabel : String := "\n        Question: "

/-- Trailing answer cue closing custom_template. -/
def reponseLabel : String := "\n        Réponse:\n        "

/-- Rendering of custom_template of chatbot_memory.py with its three
placeholders filled: system instructions, then context, then chat history,
then the question. -/
def custom_template (context chat_history question : String) : String :=
  systemInstructions ++ contexteLabel ++ context ++ historiqueLabel ++ chat_history ++
    questionLabel ++ question ++ reponseLabel

/-- Rendering of one buffer-memory message the way the chain serializes chat
history into the prompt. -/
def renderTurn (t : Turn) : String :=
  match t.role with
  | Role.user => "Human: " ++ t.text
  | Role.assistant => "Assistant: " ++ t.text

/-- Serialization of the whole buffer memory, every turn oldest first, one
rendered turn per line; no windowing or summarization. -/
def serializeHistory : History → String
  | [] => ""
  | [t] => renderTurn t
  | t :: u :: ts => renderTurn t ++ "\n" ++ serializeHistory (u :: ts)

/-- Concatenated page content of the retrieved documents, joined with blank
lines, as the stuff-documents step renders the context section. -/
def joinDocs : List Document → String
  | [] => ""
  | [d] => d.text
  | d :: e :: ds => d.text ++ "\n\n" ++ joinDocs (e :: ds)

/-- Prompt handed to the generation model for one query: custom_template
filled with the retrieved context, the serialized full history and the
question of this turn. -/
def builtPrompt (docs : List Document) (mem : History) (question : String) : String :=
  custom_template (joinDocs docs) (serializeHistory mem) question

/-- Modelled from the spec: ChatbotMemory.ask runs one invocation of the
conversational retrieval chain assembled in ChatbotMemory.__init__; the
chain and the buffer memory are library code absent from the repository, so
the call behavior follows the spec's orchestrator description.  The
black-box outcomes of the condense-question model call, of the retriever
(embedding plus nearest-neighbor lookup) and of the generation model call
are parameters.  One call: when the serialized history is nonempty the
question is first condensed by a model call; the (possibly condensed)
question goes to the retriever; the prompt is built by custom_template from
the retrieved context, the full serialized history and the question; the
generator is invoked; only on success are the (user, question) and
(assistant, answer) turns appended to memory, in that order, while any
failure propagates as the raised error with memory unchanged. -/
def ask (condense : String → String → Except String String)
    (retrieve : String → Except String (List Document))
    (gen : String → Except String String)
    (mem : History) (question : String) : Except String String × History :=
  match (if serializeHistory mem = "" then Except.ok question
         else condense (serializeHistory mem) question) with
  | Except.error e => (Except.error e, mem)
  | Except.ok nq =>
    match retrieve nq with
    | Except.error e => (Except.error e, mem)
    | Except.ok docs =>
      match gen (builtPrompt docs mem nq) with
      | Except.error e => (Except.error e, mem)
      | Except.ok answer =>
        (Except.ok answer,
          mem ++ [Turn.mk Role.user question, Turn.mk Role.assistant answer])

/-- Python str.strip as used by the blank-input guard of send_message:
whitespace removed from both ends of the string. -/
def pyStrip (s : String) : String :=
  String.mk (((s.data.dropWhile Char.isWhitespace).reverse.dropWhile
    Char.isWhitespace).reverse)

/-- Final rendered content of one chat transcript entry of the page. -/
inductive ChatMsg where
  | userMsg (text : String)
  | assistantMsg (markdown : String)
  deriving DecidableEq

/-- Apology markdown rendered by the except branch of send_message, with the
exception detail interpolated. -/
def apologyText (detail : String) : String :=
  "Désolé, une erreur est survenue. Veuillez réessayer.\n*Détail : " ++ detail ++ "*"

/-- Observable page state: the input field value, the chat transcript and the
session's conversation memory. -/
structure PageState where
  inputValue : String
  chatLog : List ChatMsg
  mem : History
  deriving DecidableEq

/-- Observable outcome of one send_message call. -/
inductive SendOutcome where
  | rejectedBlank
  | answered (answer : String)
  | failed (detail : String)
  deriving DecidableEq

/-- ChatbotPage.send_message: a message whose strip is empty returns at once
with nothing changed; otherwise the user message is echoed into the
transcript, the input field is cleared, ask runs off-thread, and the pending
assistant message becomes either the markdown answer or, when ask raises,
the apology with the exception detail — the exception is never re-raised. -/
def send_message (condense : String → String → Except String String)
    (retrieve : String → Except String (List Document))
    (gen : String → Except String String)
    (s : PageState) : PageState × SendOutcome :=
  if pyStrip s.inputValue = "" then (s, SendOutcome.rejectedBlank)
  else
    match ask condense retrieve gen s.mem s.inputValue with
    | (Except.ok answer, mem2) =>
      ({ inputValue := "",
         chatLog := s.chatLog ++ [ChatMsg.userMsg s.inputValue,
           ChatMsg.assistantMsg answer],
         mem := mem2 },
        SendOutcome.answered answer)
    | (Except.error e, mem2) =>
      ({ inputValue := "",
         chatLog := s.chatLog ++ [ChatMsg.userMsg s.inputValue,
           ChatMsg.assistantMsg (apologyText e)],
         mem := mem2 },
        SendOutcome.failed e)

/-- Exception out of VectorDB.__init__: the FileNotFoundError raised when the
index path is missing, or a failure propagated from FAISS.load_local. -/
inductive InitError where
  | fileNotFound (path : String)
  | loadFailure (detail : String)
  deriving DecidableEq

/-- String rendering of an InitError as the notification interpolates it. -/
def InitError.detail : InitError → String
  | InitError.fileNotFound path =>
      "FAISS index not found at '" ++ path ++
        "'.\nPlease run the 'python create_index.py' script first to generate it."
  | InitError.loadFailure e => e

/-- VectorDB.__init__: the index path is checked before any load; a missing
path raises FileNotFoundError and FAISS.load_local (a black-box parameter)
is never invoked; otherwise the load runs and its own failure propagates as
a distinct exception. -/
def vectorDBInit {α : Type} (pathExists : Bool) (path : String)
    (loadLocal : Unit → Except String α) : Except InitError α :=
  if pathExists then
    match loadLocal () with
    | Except.error e => Except.error (InitError.loadFailure e)
    | Except.ok db => Except.ok db
  else Except.error (InitError.fileNotFound path)

/-- Outcome of ChatbotPage.__init__ as observed by the user. -/
inductive InitOutcome (β : Type) where
  | ready (memory : β)
  | initErrorShown (message : String)

/-- ChatbotPage.__init__: builds the vector database and then the chatbot
memory inside one try block; any exception is caught and shown as the
negative initialization notification instead of crashing the application. -/
def chatbotPageInit {α β : Type} (pathExists : Bool) (path : String)
    (loadLocal : Unit → Except String α) (memoryInit : α → Except String β) :
    InitOutcome β :=
  match vectorDBInit pathExists path loadLocal with
  | Except.error e =>
      InitOutcome.initErrorShown ("Erreur lors de l'initialisation: " ++ e.detail)
  | Except.ok db =>
    match memoryInit db with
    | Except.error e2 =>
        InitOutcome.initErrorShown ("Erreur lors de l'initialisation: " ++ e2)
    | Except.ok m => InitOutcome.ready m

/-- Sequence of ask calls against one session, each step a question paired
with the black-box generator outcome of that call; the whole run is none
when any call fails. -/
def askAll (condense : String → String → Except String String)
    (retrieve : String → Except String (List Document)) :
    List (String × (String → Except String String)) → History → Option History
  | [], mem => some mem
  | (q, gen) :: rest, mem =>
    match ask condense retrieve gen mem q with
    | (Except.ok _, mem2) => askAll condense retrieve rest mem2
    | (Except.error _, _) => none

/-- Turns produced by a run of question/answer pairs: one user turn then one
assistant turn per pair, in call order (specification-side helper). -/
def turnsOf : List (String × String) → History
  | [] => []
  | p :: ps => Turn.mk Role.user p.1 :: Turn.mk Role.assistant p.2 :: turnsOf ps

/-- Alternating user/assistant role pattern of length 2n
(specification-side helper). -/
def roleStripes : Nat → List Role
  | 0 => []
  | n + 1 => Role.user :: Role.assistant :: roleStripes n

/-- Texts of the user turns of a history, in order
(specification-side helper). -/
def userTexts (h : History) : List String :=
  (h.filter (fun t => t.role == Role.user)).map Turn.text

/-- Dichotomy of one ask call: either it fails and the memory it returns is
the memory it was given, or it succeeds and the returned memory is the given
one with the (user, question) and (assistant, answer) turns appended. -/
theorem ask_cases (c : String → String → Except String String)
    (r : String → Except String (List Document)) (g : String → Except String String)
    (mem : History) (q : String) :
    (∃ e, ask c r g mem q = (Except.error e, mem)) ∨
    ∃ a, ask c r g mem q =
      (Except.ok a, mem ++ [Turn.mk Role.user q, Turn.mk Role.assistant a]) := by
  unfold ask
  split
  · exact Or.inl ⟨_, rfl⟩
  · split
    · exact Or.inl ⟨_, rfl⟩
    · split
      · exact Or.inl ⟨_, rfl⟩
      · exact Or.inr ⟨_, rfl⟩

/-- A failing ask call returns the memory it was given. -/
theorem ask_error_mem {c : String → String → Except String String}
    {r : String → Except String (List Document)} {g : String → Except String String}
    {mem : History} {q : String} {e : String}
    (h : (ask c r g mem q).1 = Except.error e) : (ask c r g mem q).2 = mem := by
  rcases ask_cases c r g mem q with ⟨e2, he⟩ | ⟨a, ha⟩
  · rw [he]
  · rw [ha] at h
    exact absurd h (by simp)

/-- A successful ask call appends exactly the user turn and the assistant
turn, in that order. -/
theorem ask_ok_mem {c : String → String → Except String String}
    {r : String → Except String (List Document)} {g : String → Except String String}
    {mem : History} {q : String} {a : String}
    (h : (ask c r g mem q).1 = Except.ok a) :
    (ask c r g mem q).2 = mem ++ [Turn.mk Role.user q, Turn.mk Role.assistant a] := by
  rcases ask_cases c r g mem q with ⟨e, he⟩ | ⟨a2, ha⟩
  · rw [he] at h
    exact absurd h (by simp)
  · rw [ha] at h ⊢
    simp only [Except.ok.injEq] at h
    rw [h]

/-- C1: a query that is empty or whitespace-only is rejected immediately by
the blank-input guard of send_message — the handler returns before ask runs,
so there is no state transition, no transcript append, no side effect, and
the conversation memory is left untouched (the InvalidInput rejection of the
specification's taxonomy). -/
theorem C1_blank_input_rejected (c : String → String → Except String String)
    (r : String → Except String (List Document)) (g : String → Except String String)
    (s : PageState) (h : pyStrip s.inputValue = "") :
    send_message c r g s = (s, SendOutcome.rejectedBlank) := by
  unfold send_message
  rw [if_pos h]

theorem C1_blank_input_rejected_witness :
    pyStrip "   " = "" ∧
    send_message (fun _ q => Except.ok q) (fun _ => Except.ok [])
        (fun _ => Except.ok "Bonjour")
        (PageState.mk "   " [] [Turn.mk Role.user "salut"]) =
      (PageState.mk "   " [] [Turn.mk Role.user "salut"], SendOutcome.rejectedBlank) :=
  ⟨rfl, C1_blank_input_rejected _ _ _ _ rfl⟩

/-- C3: when the generation step (or any step of the chain) fails, the ask
call leaves the conversation memory exactly as it was before the call — no
partial user turn and no assistant text is recorded on the failure path. -/
theorem C3_failure_isolation (c : String → String → Except String String)
    (r : String → Except String (List Document)) (g : String → Except String String)
    (mem : History) (q : String) (e : String)
    (h : (ask c r g mem q).1 = Except.error e) : (ask c r g mem q).2 = mem :=
  ask_error_mem h

theorem C3_failure_isolation_witness :
    (ask (fun _ q => Except.ok q) (fun _ => Except.ok [])
        (fun _ => Except.error "panne du modèle")
        [Turn.mk Role.user "a", Turn.mk Role.assistant "b"] "Bonjour").1 =
      Except.error "panne du modèle" ∧
    (ask (fun _ q => Except.ok q) (fun _ => Except.ok [])
        (fun _ => Except.error "panne du modèle")
        [Turn.mk Role.user "a", Turn.mk Role.assistant "b"] "Bonjour").2 =
      [Turn.mk Role.user "a", Turn.mk Role.assistant "b"] :=
  ⟨rfl, C3_failure_isolation _ _ _ _ _ _ rfl⟩

/-- A successful run of ask calls appends, after the memory it started from,
exactly one user/assistant turn pair per call, the user turn carrying that
call's question, in call order. -/
theorem askAll_turns (c : String → String → Except String String)
    (r : String → Except String (List Document)) :
    ∀ (steps : List (String × (String → Except String String))) (mem h : History),
      askAll c r steps mem = some h →
      ∃ pairs : List (String × String),
        pairs.map Prod.fst = steps.map Prod.fst ∧ h = mem ++ turnsOf pairs := by
  intro steps
  induction steps with
  | nil =>
    intro mem h hrun
    refine ⟨[], rfl, ?_⟩
    simp only [askAll, Option.some.injEq] at hrun
    simp [turnsOf, hrun]
  | cons step rest ih =>
    intro mem h hrun
    obtain ⟨q, gen⟩ := step
    rcases ask_cases c r gen mem q with ⟨e, he⟩ | ⟨a, ha⟩
    · rw [askAll, he] at hrun
      exact absurd hrun (by simp)
    · rw [askAll, ha] at hrun
      obtain ⟨pairs, hfst, hh⟩ :=
        ih (mem ++ [Turn.mk Role.user q, Turn.mk Role.assistant a]) h hrun
      refine ⟨(q, a) :: pairs, ?_, ?_⟩
      · simp [hfst]
      · rw [hh]
        simp [turnsOf]

/-- Length of the produced turns: two per question/answer pair. -/
theorem turnsOf_length (ps : List (String × String)) :
    (turnsOf ps).length = 2 * ps.length := by
  induction ps with
  | nil => rfl
  | cons p ps ih =>
    simp only [turnsOf, List.length_cons, ih]
    ring

/-- Roles of the produced turns alternate user/assistant. -/
theorem turnsOf_roles (ps : List (String × String)) :
    (turnsOf ps).map Turn.role = roleStripes ps.length := by
  induction ps with
  | nil => rfl
  | cons p ps ih =>
    simp only [turnsOf, List.map_cons, List.length_cons, roleStripes, ih]

/-- User turns of the produced history carry the questions, in call order. -/
theorem turnsOf_userTexts (ps : List (String × String)) :
    userTexts (turnsOf ps) = ps.map Prod.fst := by
  induction ps with
  | nil => rfl
  | cons p ps ih =>
    simp only [turnsOf, userTexts, List.filter] at ih ⊢
    rw [show (Role.user == Role.user) = true from rfl,
      show (Role.assistant == Role.user) = false from rfl]
    simp [ih]

/-- C2: after N successful ask calls on one session that starts with an empty
conversation memory, the history holds exactly 2N turns, their roles
alternate user/assistant starting with user, and the user turns carry the N
questions in call order — each successful call appended its (user, question)
turn and then its (assistant, answer) turn. -/
theorem C2_memory_append_ordered (c : String → String → Except String String)
    (r : String → Except String (List Document))
    (steps : List (String × (String → Except String String))) (h : History)
    (hrun : askAll c r steps [] = some h) :
    h.length = 2 * steps.length ∧
    h.map Turn.role = roleStripes steps.length ∧
    userTexts h = steps.map Prod.fst := by
  obtain ⟨pairs, hfst, hh⟩ := askAll_turns c r steps [] h hrun
  have hlen : pairs.length = steps.length := by
    have := congrArg List.length hfst
    simpa using this
  rw [hh]
  simp only [List.nil_append]
  exact ⟨by rw [turnsOf_length, hlen], by rw [turnsOf_roles, hlen],
    by rw [turnsOf_userTexts, hfst]⟩

theorem C2_memory_append_ordered_witness :
    askAll (fun _ q => Except.ok q) (fun _ => Except.ok [])
        [("Bonjour", fun _ => Except.ok "Salut"),
         ("Comment allez vous", fun _ => Except.ok "Bien")] [] =
      some [Turn.mk Role.user "Bonjour", Turn.mk Role.assistant "Salut",
        Turn.mk Role.user "Comment allez vous", Turn.mk Role.assistant "Bien"] ∧
    ([Turn.mk Role.user "Bonjour", Turn.mk Role.assistant "Salut",
        Turn.mk Role.user "Comment allez vous",
        Turn.mk Role.assistant "Bien"] : History).length = 2 * 2 ∧
    ([Turn.mk Role.user "Bonjour", Turn.mk Role.assistant "Salut",
        Turn.mk Role.user "Comment allez vous",
        Turn.mk Role.assistant "Bien"] : History).map Turn.role = roleStripes 2 ∧
    userTexts [Turn.mk Role.user "Bonjour", Turn.mk Role.assistant "Salut",
        Turn.mk Role.user "Comment allez vous", Turn.mk Role.assistant "Bien"] =
      ["Bonjour", "Comment allez vous"] :=
  ⟨rfl,
    C2_memory_append_ordered (fun _ q => Except.ok q) (fun _ => Except.ok [])
      [("Bonjour", fun _ => Except.ok "Salut"),
       ("Comment allez vous", fun _ => Except.ok "Bien")]
      [Turn.mk Role.user "Bonjour", Turn.mk Role.assistant "Salut",
        Turn.mk Role.user "Comment allez vous", Turn.mk Role.assistant "Bien"] rfl⟩

/-- C4: loading the vector index fails with the FileNotFoundError ("index not
found") exactly when the index path does not exist; when the path is missing
no load is attempted (the result does not depend on the loader at all), and
the failure aborts chatbot initialization with the user-visible
initialization notification instead of crashing. -/
theorem C4_index_missing_fatal (α β : Type) (path : String)
    (loadLocal : Unit → Except String α) (memoryInit : α → Except String β)
    (pathExists : Bool) :
    ((∃ p, vectorDBInit pathExists path loadLocal =
        Except.error (InitError.fileNotFound p)) ↔ pathExists = false) ∧
    (∀ loadLocal2 : Unit → Except String α,
      vectorDBInit false path loadLocal = vectorDBInit false path loadLocal2) ∧
    chatbotPageInit false path loadLocal memoryInit =
      InitOutcome.initErrorShown
        ("Erreur lors de l'initialisation: " ++ (InitError.fileNotFound path).detail) := by
  refine ⟨⟨?_, ?_⟩, fun _ => rfl, rfl⟩
  · rintro ⟨p, hp⟩
    cases pathExists
    · rfl
    · exfalso
      rcases hl : loadLocal () with e | db <;> simp [vectorDBInit, hl] at hp
  · rintro rfl
    exact ⟨path, rfl⟩

/-- Every turn of the memory appears verbatim, rendered, inside the
serialized history: nothing is windowed away. -/
theorem serializeHistory_contains (h : History) :
    ∀ t ∈ h, ∃ pre post, serializeHistory h = pre ++ renderTurn t ++ post := by
  induction h with
  | nil => intro t ht; exact absurd ht (List.not_mem_nil t)
  | cons a rest ih =>
    intro t ht
    cases rest with
    | nil =>
      rcases List.mem_singleton.mp ht with rfl
      refine ⟨"", "", ?_⟩
      rw [String.append_empty]
      rfl
    | cons b rest2 =>
      rcases List.mem_cons.mp ht with rfl | ht2
      · refine ⟨"", "\n" ++ serializeHistory (b :: rest2), ?_⟩
        simp [serializeHistory, String.append_assoc]
      · obtain ⟨pre, post, heq⟩ := ih t ht2
        refine ⟨renderTurn a ++ "\n" ++ pre, post, ?_⟩
        simp [serializeHistory, heq, String.append_assoc]

/-- Every retrieved document's text appears verbatim inside the joined
context section. -/
theorem joinDocs_contains (docs : List Document) :
    ∀ d ∈ docs, ∃ pre post, joinDocs docs = pre ++ d.text ++ post := by
  induction docs with
  | nil => intro d hd; exact absurd hd (List.not_mem_nil d)
  | cons a rest ih =>
    intro d hd
    cases rest with
    | nil =>
      rcases List.mem_singleton.mp hd with rfl
      refine ⟨"", "", ?_⟩
      rw [String.append_empty]
      rfl
    | cons b rest2 =>
      rcases List.mem_cons.mp hd with rfl | hd2
      · refine ⟨"", "\n\n" ++ joinDocs (b :: rest2), ?_⟩
        simp [joinDocs, String.append_assoc]
      · obtain ⟨pre, post, heq⟩ := ih d hd2
        refine ⟨a.text ++ "\n\n" ++ pre, post, ?_⟩
        simp [joinDocs, heq, String.append_assoc]

/-- C5: the prompt handed to the generation model is custom_template's four
sections in fixed order — system instructions, then the joined retrieved
context, then the serialized conversation history, then the question — the
history section containing every turn of the memory (no windowing, no
summarization), the context section containing every retrieved document, and
the generator receiving exactly this string (observed by echoing the
generator's input back as its error). -/
theorem C5_prompt_sections (docs : List Document) (mem : History) (q : String) :
    builtPrompt docs mem q =
      systemInstructions ++ (contexteLabel ++ joinDocs docs) ++
        (historiqueLabel ++ serializeHistory mem) ++
        (questionLabel ++ q ++ reponseLabel) ∧
    (∀ t ∈ mem, ∃ pre post, serializeHistory mem = pre ++ renderTurn t ++ post) ∧
    (∀ d ∈ docs, ∃ pre post, joinDocs docs = pre ++ d.text ++ post) ∧
    (ask (fun _ q2 => Except.ok q2) (fun _ => Except.ok docs)
        (fun p => Except.error p) mem q).1 =
      Except.error (builtPrompt docs mem q) := by
  refine ⟨?_, serializeHistory_contains mem, joinDocs_contains docs, ?_⟩
  · simp [builtPrompt, custom_template, String.append_assoc]
  · unfold ask
    by_cases hm : serializeHistory mem = ""
    · rw [if_pos hm]
    · rw [if_neg hm]

/-- C6: the retriever is configured with k = 3; for every query the search
result is at most k scored documents, sorted by increasing distance from the
query embedding, and they are the k nearest: the remaining scored entries
(completing a permutation of all of them) all lie at least as far away. -/
theorem C6_retrieval_topk :
    retrieverK = 3 ∧
    ∀ (entries : List IndexEntry) (qv : Embedding),
      (similaritySearch entries qv retrieverK).length ≤ retrieverK ∧
      List.Sorted distLE (similaritySearch entries qv retrieverK) ∧
      ∃ rest : List (Document × ℚ),
        List.Perm (similaritySearch entries qv retrieverK ++ rest)
          (scoreEntries entries qv) ∧
        ∀ p ∈ similaritySearch entries qv retrieverK, ∀ o ∈ rest, p.2 ≤ o.2 := by
  refine ⟨rfl, fun entries qv => ?_⟩
  have hsorted : List.Sorted distLE (List.insertionSort distLE (scoreEntries entries qv)) :=
    List.sorted_insertionSort distLE (scoreEntries entries qv)
  refine ⟨List.length_take_le _ _, ?_,
    (List.insertionSort distLE (scoreEntries entries qv)).drop retrieverK, ?_, ?_⟩
  · exact List.Pairwise.sublist (List.take_sublist _ _) hsorted
  · rw [similaritySearch, List.take_append_drop]
    exact List.perm_insertionSort distLE _
  · have hsplit := hsorted
    rw [← List.take_append_drop retrieverK
      (List.insertionSort distLE (scoreEntries entries qv))] at hsplit
    exact fun p hp o ho => (List.pairwise_append.mp hsplit).2.2 p hp o ho

/-- One equation for send_message on the failure path: when the input is not
blank and ask raises, the handler catches the exception and returns the page
state with the input cleared, the user message echoed and the pending
assistant message replaced by the apology holding the exception detail. -/
theorem send_message_error (c : String → String → Except String String)
    (r : String → Except String (List Document)) (g : String → Except String String)
    (s : PageState) (e : String) (hne : ¬ pyStrip s.inputValue = "")
    (h : (ask c r g s.mem s.inputValue).1 = Except.error e) :
    send_message c r g s =
      (PageState.mk ""
        (s.chatLog ++ [ChatMsg.userMsg s.inputValue,
          ChatMsg.assistantMsg (apologyText e)]) s.mem,
        SendOutcome.failed e) := by
  have hmem : (ask c r g s.mem s.inputValue).2 = s.mem := ask_error_mem h
  unfold send_message
  rw [if_neg hne]
  rcases hask : ask c r g s.mem s.inputValue with ⟨res, mem2⟩
  rw [hask] at h hmem
  simp only at h hmem
  rw [h, hmem]

/-- One equation for send_message with an everything-succeeds backend: the
next message is answered normally. -/
theorem send_message_ok (a : String) (s : PageState)
    (hne : ¬ pyStrip s.inputValue = "") :
    send_message (fun _ q2 => Except.ok q2) (fun _ => Except.ok [])
        (fun _ => Except.ok a) s =
      (PageState.mk ""
        (s.chatLog ++ [ChatMsg.userMsg s.inputValue, ChatMsg.assistantMsg a])
        (s.mem ++ [Turn.mk Role.user s.inputValue, Turn.mk Role.assistant a]),
        SendOutcome.answered a) := by
  have hask : ask (fun _ q2 => Except.ok q2) (fun _ => Except.ok [])
      (fun _ => Except.ok a) s.mem s.inputValue =
      (Except.ok a,
        s.mem ++ [Turn.mk Role.user s.inputValue, Turn.mk Role.assistant a]) := by
    unfold ask
    by_cases hm : serializeHistory s.mem = ""
    · rw [if_pos hm]
    · rw [if_neg hm]
  unfold send_message
  rw [if_neg hne, hask]

/-- C7 counterexample: an empty query — the InvalidInput case of the claim —
never reaches ask's caller as a distinguishable failure.  Called directly on
the empty string, ask succeeds (the chain simply runs), and through the page
the blank guard swallows the input silently, surfacing no failure at all. -/
theorem C7_counterexample :
    (ask (fun _ q2 => Except.ok q2) (fun _ => Except.ok [])
        (fun _ => Except.ok "Bonjour") [] "").1 = Except.ok "Bonjour" ∧
    send_message (fun _ q2 => Except.ok q2) (fun _ => Except.ok [])
        (fun _ => Except.ok "Bonjour") (PageState.mk "" [] []) =
      (PageState.mk "" [] [], SendOutcome.rejectedBlank) :=
  ⟨rfl, rfl⟩

/-- C7 amended: IndexNotFound is surfaced separately at initialization, but
the runtime error kinds are not distinguished at the ask boundary — every
exception ask raises, whatever its kind, lands in the single generic except
handler of send_message, which shows the same apology template with only the
exception's detail text interpolated; blank input never reaches ask and
surfaces no failure. -/
theorem C7_single_generic_handler (c : String → String → Except String String)
    (r : String → Except String (List Document)) (g : String → Except String String)
    (s : PageState) (e : String) (hne : ¬ pyStrip s.inputValue = "")
    (h : (ask c r g s.mem s.inputValue).1 = Except.error e) :
    (send_message c r g s).2 = SendOutcome.failed e ∧
    (send_message c r g s).1.chatLog =
      s.chatLog ++ [ChatMsg.userMsg s.inputValue,
        ChatMsg.assistantMsg (apologyText e)] := by
  rw [send_message_error c r g s e hne h]
  exact ⟨rfl, rfl⟩

theorem C7_single_generic_handler_witness :
    (¬ pyStrip "Où trouver une clinique" = "") ∧
    (ask (fun _ q2 => Except.ok q2) (fun _ => Except.ok [])
        (fun _ => Except.error "connexion refusée")
        [] "Où trouver une clinique").1 = Except.error "connexion refusée" ∧
    (send_message (fun _ q2 => Except.ok q2) (fun _ => Except.ok [])
        (fun _ => Except.error "connexion refusée")
        (PageState.mk "Où trouver une clinique" [] [])).2 =
      SendOutcome.failed "connexion refusée" ∧
    (send_message (fun _ q2 => Except.ok q2) (fun _ => Except.ok [])
        (fun _ => Except.error "connexion refusée")
        (PageState.mk "Où trouver une clinique" [] [])).1.chatLog =
      [ChatMsg.userMsg "Où trouver une clinique",
        ChatMsg.assistantMsg (apologyText "connexion refusée")] :=
  ⟨by decide, rfl,
    C7_single_generic_handler _ _ _ _ _ (by decide) rfl⟩

/-- C8 counterexample: a failing ask call does not preserve the typed input.
With the concrete input "Bonjour" and a generator that raises, send_message
fails — and the input field ends empty, not "Bonjour": it was cleared before
ask ran, so the user must retype to retry. -/
theorem C8_counterexample :
    (send_message (fun _ q2 => Except.ok q2) (fun _ => Except.ok [])
        (fun _ => Except.error "panne") (PageState.mk "Bonjour" [] [])).2 =
      SendOutcome.failed "panne" ∧
    (send_message (fun _ q2 => Except.ok q2) (fun _ => Except.ok [])
        (fun _ => Except.error "panne") (PageState.mk "Bonjour" [] [])).1.inputValue =
      "" ∧
    ¬ ((send_message (fun _ q2 => Except.ok q2) (fun _ => Except.ok [])
        (fun _ => Except.error "panne")
        (PageState.mk "Bonjour" [] [])).1.inputValue =
      (PageState.mk "Bonjour" [] []).inputValue) :=
  ⟨rfl, rfl, by decide⟩

/-- C8 amended: on every failing ask call the user sees the short apology
with the exception detail appended to the transcript, but the typed input is
cleared unconditionally when the message is dispatched — before ask runs —
so it is not preserved on failure; the input survives only the blank-input
rejection, which sends nothing. -/
theorem C8_apology_but_input_cleared (c : String → String → Except String String)
    (r : String → Except String (List Document)) (g : String → Except String String)
    (s : PageState) (e : String) (hne : ¬ pyStrip s.inputValue = "")
    (h : (ask c r g s.mem s.inputValue).1 = Except.error e) :
    (send_message c r g s).1.inputValue = "" ∧
    (send_message c r g s).1.chatLog =
      s.chatLog ++ [ChatMsg.userMsg s.inputValue,
        ChatMsg.assistantMsg (apologyText e)] ∧
    ∀ s2 : PageState, pyStrip s2.inputValue = "" →
      (send_message c r g s2).1.inputValue = s2.inputValue := by
  rw [send_message_error c r g s e hne h]
  refine ⟨rfl, rfl, fun s2 h2 => ?_⟩
  unfold send_message
  rw [if_pos h2]

theorem C8_apology_but_input_cleared_witness :
    (¬ pyStrip "Bonsoir" = "") ∧
    (ask (fun _ q2 => Except.ok q2) (fun _ => Except.error "modèle indisponible")
        (fun _ => Except.ok "x") [] "Bonsoir").1 = Except.error "modèle indisponible" ∧
    (send_message (fun _ q2 => Except.ok q2)
        (fun _ => Except.error "modèle indisponible") (fun _ => Except.ok "x")
        (PageState.mk "Bonsoir" [] [])).1.inputValue = "" ∧
    (send_message (fun _ q2 => Except.ok q2)
        (fun _ => Except.error "modèle indisponible") (fun _ => Except.ok "x")
        (PageState.mk "Bonsoir" [] [])).1.chatLog =
      [ChatMsg.userMsg "Bonsoir",
        ChatMsg.assistantMsg (apologyText "modèle indisponible")] :=
  ⟨by decide, rfl,
    (C8_apology_but_input_cleared (fun _ q2 => Except.ok q2)
      (fun _ => Except.error "modèle indisponible") (fun _ => Except.ok "x")
      (PageState.mk "Bonsoir" [] []) "modèle indisponible" (by decide) rfl).1,
    (C8_apology_but_input_cleared (fun _ q2 => Except.ok q2)
      (fun _ => Except.error "modèle indisponible") (fun _ => Except.ok "x")
      (PageState.mk "Bonsoir" [] []) "modèle indisponible" (by decide) rfl).2.1⟩

/-- C10: send_message never lets an exception escape — whenever ask raises,
for any non-blank message, the handler catches it, replaces the pending
assistant message with the apology carrying the exception detail, returns
normally, and the resulting page still processes the next message: a later
send with a working backend is answered. -/
theorem C10_exception_caught_session_alive (c : String → String → Except String String)
    (r : String → Except String (List Document)) (g : String → Except String String)
    (s : PageState) (e : String) (hne : ¬ pyStrip s.inputValue = "")
    (h : (ask c r g s.mem s.inputValue).1 = Except.error e) :
    send_message c r g s =
      (PageState.mk ""
        (s.chatLog ++ [ChatMsg.userMsg s.inputValue,
          ChatMsg.assistantMsg (apologyText e)]) s.mem,
        SendOutcome.failed e) ∧
    ∀ (q2 a2 : String), ¬ pyStrip q2 = "" →
      (send_message (fun _ q3 => Except.ok q3) (fun _ => Except.ok [])
          (fun _ => Except.ok a2)
          (PageState.mk q2 (send_message c r g s).1.chatLog
            (send_message c r g s).1.mem)).2 = SendOutcome.answered a2 := by
  refine ⟨send_message_error c r g s e hne h, fun q2 a2 hq2 => ?_⟩
  rw [send_message_ok a2 (PageState.mk q2 (send_message c r g s).1.chatLog
    (send_message c r g s).1.mem) hq2]

theorem C10_exception_caught_session_alive_witness :
    (¬ pyStrip "Aidez moi" = "") ∧
    (ask (fun _ q2 => Except.ok q2) (fun _ => Except.ok [])
        (fun _ => Except.error "délai dépassé") [] "Aidez moi").1 =
      Except.error "délai dépassé" ∧
    send_message (fun _ q2 => Except.ok q2) (fun _ => Except.ok [])
        (fun _ => Except.error "délai dépassé") (PageState.mk "Aidez moi" [] []) =
      (PageState.mk ""
        [ChatMsg.userMsg "Aidez moi",
          ChatMsg.assistantMsg (apologyText "délai dépassé")] [],
        SendOutcome.failed "délai dépassé") ∧
    (¬ pyStrip "Merci" = "") ∧
    (send_message (fun _ q3 => Except.ok q3) (fun _ => Except.ok [])
        (fun _ => Except.ok "De rien")
        (PageState.mk "Merci"
          (send_message (fun _ q2 => Except.ok q2) (fun _ => Except.ok [])
            (fun _ => Except.error "délai dépassé")
            (PageState.mk "Aidez moi" [] [])).1.chatLog
          (send_message (fun _ q2 => Except.ok q2) (fun _ => Except.ok [])
            (fun _ => Except.error "délai dépassé")
            (PageState.mk "Aidez moi" [] [])).1.mem)).2 =
      SendOutcome.answered "De rien" :=
  ⟨by decide, rfl,
    (C10_exception_caught_session_alive (fun _ q2 => Except.ok q2)
      (fun _ => Except.ok []) (fun _ => Except.error "délai dépassé")
      (PageState.mk "Aidez moi" [] []) "délai dépassé" (by decide) rfl).1,
    by decide,
    (C10_exception_caught_session_alive (fun _ q2 => Except.ok q2)
      (fun _ => Except.ok []) (fun _ => Except.error "délai dépassé")
      (PageState.mk "Aidez moi" [] []) "délai dépassé" (by decide) rfl).2
      "Merci" "De rien" (by decide)⟩

end MindCare
